import Mathlib

/-!
# Verification of the Philips AirPurifier connection supervisor

Shallow embedding of `custom_components/philips_airpurifier/coordinator.py`
(class `PhilipsAirPurifierCoordinator`).  The coordinator owns one CoAP
client per device, keeps a cached status map fresh through a push
subscription, detects silent failures with a watchdog, and recovers the
connection via a guarded reconnect procedure.

Modelling conventions:
* The external CoAP client is an oracle: each network call's result
  (`get_status`, `set_control_values`, `shutdown`, client creation) is
  passed in as an `Except PyExc _` value.
* Python exceptions are `PyExc`: `asyncio.CancelledError` is the
  distinguished `cancelled` case (it is a `BaseException`, so a bare
  `except Exception` does not catch it), every other exception is
  `error msg`.
* Awaited calls are inlined: their state updates and side effects appear
  in the caller's result.  `hass.async_create_task(...)` (fire-and-forget
  spawning) appears only as a `spawn…` effect together with the fresh
  task handle stored in the state; the spawned coroutine's own effects do
  NOT appear in the caller's trace.
* Side effects (log lines, task cancellation, client calls, listener
  notification) are collected in an ordered `List Effect`.
* Monotonic clock readings are `Nat` (the code compares nonnegative
  floats; for nonnegative times truncated subtraction agrees with the
  float comparison `elapsed > threshold`).
-/

namespace PhilipsAirPurifier

/-- A scalar value of a device status map (Python `Any` restricted to the
scalars the protocol produces: strings, integers, booleans). -/
inductive Scalar
  | str (s : String)
  | int (n : Int)
  | bool (b : Bool)
deriving DecidableEq

/-- A device status map: full-state snapshot keyed by protocol strings
(Python `dict[str, Any]`, modelled as an association list). -/
abbrev StatusMap := List (String × Scalar)

/-- `ApiGeneration` from `model.py`. -/
inductive ApiGeneration
  | GEN1
  | GEN2
  | GEN3
deriving DecidableEq

/-- `DeviceModelConfig` from `model.py`: data-driven per-model
configuration.  Dict-valued capability tables become association lists;
all defaults are those of the Python dataclass. -/
structure DeviceModelConfig where
  api_generation : ApiGeneration
  preset_modes : List (String × List (String × Scalar)) := []
  speeds : List (String × List (String × Scalar)) := []
  switches : List String := []
  lights : List String := []
  selects : List String := []
  numbers : List String := []
  humidifiers : List String := []
  heaters : List String := []
  binary_sensors : List String := []
  unavailable_filters : List String := []
  unavailable_sensors : List String := []
  oscillation : Option (List (String × List (String × Scalar))) := none
  create_fan : Bool := true
  requires_mode_cycling : Bool := false
deriving DecidableEq

/-- The `model_config` property of the coordinator (coordinator.py lines
83-92), parameterised by the `DEVICE_MODELS` table from
`device_models.py` (a `dict[str, DeviceModelConfig]`, modelled as an
association list).  `model[:6]` is `String.take 6`; `model in
DEVICE_MODELS` / `DEVICE_MODELS[model]` is `List.lookup`. -/
def model_config (DEVICE_MODELS : List (String × DeviceModelConfig))
    (model : String) : DeviceModelConfig :=
  let model_family := model.take 6
  match DEVICE_MODELS.lookup model with
  | some cfg => cfg
  | none =>
    match DEVICE_MODELS.lookup model_family with
    | some cfg => cfg
    | none => { api_generation := ApiGeneration.GEN1 }

/-- A Python exception: `asyncio.CancelledError` or any other
exception. -/
inductive PyExc
  | cancelled
  | error (msg : String)
deriving DecidableEq

/-- How a coroutine finished: returned normally, or escaped with an
exception of a given kind.  `ConfigEntryNotReady` is the distinguished
"not ready, retry later" condition raised by startup. -/
inductive Outcome
  | ok
  | raisedCancelled
  | raisedConfigEntryNotReady (msg : String)
  | raisedError (msg : String)
deriving DecidableEq

/-- An observable side effect of a coordinator method. -/
inductive Effect
  | logWarning (msg : String)
  | logInfo (msg : String)
  | logDebug (msg : String)
  | logException (msg : String)
  | sleep (seconds : Nat)
  | cancelTask (id : Nat)
  | spawnObserveTask (id : Nat)
  | spawnWatchdogTask (id : Nat)
  | spawnReconnectBody (id : Nat)
  | spawnReconnectTrigger
  | clientShutdown
  | clientCreate
  | clientGetStatus
  | clientSetControlValues (values : StatusMap)
  | notifyListeners (status : StatusMap)
deriving DecidableEq

/-- An `asyncio.Task` handle: identity plus whether `task.done()` holds
at the instant a method inspects it. -/
structure TaskHandle where
  id : Nat
  done : Bool
deriving DecidableEq

/-- The mutable state of one `PhilipsAirPurifierCoordinator`.  Clients
are identified by `Nat` handles (`client` is `Option` because
`async_shutdown` guards on `self.client is not None`).  `data` is the
status cache of the underlying `DataUpdateCoordinator` (`None` before the
first publish).  `nextTaskId` is the supply of fresh task identities. -/
structure CoordinatorState where
  client : Option Nat
  timeout : Nat
  lastUpdate : Nat
  deviceAvailable : Bool
  observeTask : Option TaskHandle
  watchdogTask : Option TaskHandle
  reconnectTask : Option TaskHandle
  data : Option StatusMap
  nextTaskId : Nat
deriving DecidableEq

/-- `MISSED_PACKAGE_COUNT` (coordinator.py line 25). -/
def MISSED_PACKAGE_COUNT : Nat := 3

/-- `DEFAULT_TIMEOUT` (coordinator.py line 26). -/
def DEFAULT_TIMEOUT : Nat := 60

/-- The state set up by `__init__` for a given client handle. -/
def initState (client : Nat) : CoordinatorState :=
  { client := some client
    timeout := DEFAULT_TIMEOUT
    lastUpdate := 0
    deviceAvailable := true
    observeTask := none
    watchdogTask := none
    reconnectTask := none
    data := none
    nextTaskId := 0 }

/-- `_mark_unavailable` (coordinator.py lines 56-60): log the transition
only when the flag is currently `True`, then clear it. -/
def markUnavailable (s : CoordinatorState) (reason : String) :
    CoordinatorState × List Effect :=
  if s.deviceAvailable then
    ({ s with deviceAvailable := false },
      [Effect.logWarning ("Device became unavailable: " ++ reason)])
  else
    (s, [])

/-- `_mark_available` (coordinator.py lines 62-66): log the transition
only when the flag is currently `False`, then set it unconditionally. -/
def markAvailable (s : CoordinatorState) : CoordinatorState × List Effect :=
  if s.deviceAvailable then
    ({ s with deviceAvailable := true }, [])
  else
    ({ s with deviceAvailable := true }, [Effect.logInfo "Device is back online"])

/-- `async_set_control_values` (coordinator.py lines 98-100): a single
awaited `self.client.set_control_values(data=values)`.  The client's
result (the oracle) is returned unchanged; nothing else is touched. -/
def async_set_control_values (s : CoordinatorState) (values : StatusMap)
    (writeResult : Except PyExc Unit) :
    CoordinatorState × List Effect × Except PyExc Unit :=
  (s, [Effect.clientSetControlValues values], writeResult)

/-- `async_set_control_value` (coordinator.py lines 94-96): delegates to
`async_set_control_values` with the singleton dict `{key: value}`. -/
def async_set_control_value (s : CoordinatorState) (key : String)
    (value : Scalar) (writeResult : Except PyExc Unit) :
    CoordinatorState × List Effect × Except PyExc Unit :=
  async_set_control_values s [(key, value)] writeResult

/-- `_start_observing` (coordinator.py lines 114-130): cancel any
existing observe task, spawn a fresh one, cancel any existing watchdog
task, spawn a fresh one. -/
def start_observing (s : CoordinatorState) : CoordinatorState × List Effect :=
  let e1 : List Effect :=
    match s.observeTask with
    | some t => [Effect.cancelTask t.id]
    | none => []
  let obsId := s.nextTaskId
  let s2 : CoordinatorState :=
    { s with observeTask := some ⟨obsId, false⟩, nextTaskId := obsId + 1 }
  let e3 : List Effect :=
    match s2.watchdogTask with
    | some t => [Effect.cancelTask t.id]
    | none => []
  let wdId := s2.nextTaskId
  let s4 : CoordinatorState :=
    { s2 with watchdogTask := some ⟨wdId, false⟩, nextTaskId := wdId + 1 }
  (s4, e1 ++ [Effect.spawnObserveTask obsId] ++ e3 ++ [Effect.spawnWatchdogTask wdId])

/-- `_async_reconnect` (coordinator.py lines 164-172), the reconnect
guard: if a reconnect task handle is present and not done, return
immediately; otherwise spawn `_do_reconnect` as a new background task and
store its handle. -/
def async_reconnect (s : CoordinatorState) : CoordinatorState × List Effect :=
  match s.reconnectTask with
  | some t =>
    if t.done then
      let id := s.nextTaskId
      ({ s with reconnectTask := some ⟨id, false⟩, nextTaskId := id + 1 },
        [Effect.spawnReconnectBody id])
    else
      (s, [])
  | none =>
    let id := s.nextTaskId
    ({ s with reconnectTask := some ⟨id, false⟩, nextTaskId := id + 1 },
      [Effect.spawnReconnectBody id])

/-- How the `observe_status` stream finishes after its yielded items:
the async generator is exhausted (the `async for` exits normally), or it
raises an exception during iteration. -/
inductive StreamEnd
  | exhausted
  | raised (e : PyExc)
deriving DecidableEq

/-- The body of the `async for` in `_async_observe_status` for one
yielded status (coordinator.py lines 135-138): record the monotonic time
as `_last_update`, mark available, publish via `async_set_updated_data`
(replace the cache and notify all registered listeners). -/
def processStatusUpdate (s : CoordinatorState) (t : Nat) (status : StatusMap) :
    CoordinatorState × List Effect :=
  let s1 : CoordinatorState := { s with lastUpdate := t }
  let (s2, e2) := markAvailable s1
  ({ s2 with data := some status }, e2 ++ [Effect.notifyListeners status])

/-- The iteration of `_async_observe_status` over the remaining stream
items, followed by the handling of how the stream finished
(coordinator.py lines 132-147): `CancelledError` is re-raised; any other
exception is caught, the device is marked unavailable, and
`_async_reconnect` is scheduled as a fire-and-forget task
(`hass.async_create_task`, not awaited); normal exhaustion of the
generator leaves the `try` block without entering any `except`. -/
def observeLoop (s : CoordinatorState) (items : List (Nat × StatusMap))
    (ending : StreamEnd) : CoordinatorState × List Effect × Outcome :=
  match items with
  | [] =>
    match ending with
    | StreamEnd.exhausted => (s, [], Outcome.ok)
    | StreamEnd.raised PyExc.cancelled => (s, [], Outcome.raisedCancelled)
    | StreamEnd.raised (PyExc.error _) =>
      let (s1, e1) := markUnavailable s "observation stream ended"
      (s1,
        e1 ++ [Effect.logDebug "Observation stream ended, triggering reconnect",
          Effect.spawnReconnectTrigger],
        Outcome.ok)
  | (t, status) :: rest =>
    let (s1, e1) := processStatusUpdate s t status
    let (s2, e2, out) := observeLoop s1 rest ending
    (s2, e1 ++ e2, out)

/-- `_async_observe_status` (coordinator.py lines 132-147) on a stream
described by its yielded items (each tagged with the monotonic time of
its arrival) and its ending. -/
def async_observe_status (s : CoordinatorState)
    (items : List (Nat × StatusMap)) (ending : StreamEnd) :
    CoordinatorState × List Effect × Outcome :=
  observeLoop s items ending

/-- One iteration of the `while True` loop of `_async_watchdog`
(coordinator.py lines 149-162): sleep `_timeout * MISSED_PACKAGE_COUNT`
seconds; then, if `_last_update > 0` and the elapsed time since it
exceeds the same threshold, mark unavailable, log, and `await
self._async_reconnect()` — the guard is awaited and therefore inlined
here; the reconnect body it may spawn is a background task. `now` is the
event-loop clock reading after the sleep. -/
def watchdog_iteration (s : CoordinatorState) (now : Nat) :
    CoordinatorState × List Effect :=
  let sleepEff := Effect.sleep (s.timeout * MISSED_PACKAGE_COUNT)
  if s.lastUpdate > 0 then
    let elapsed := now - s.lastUpdate
    if elapsed > s.timeout * MISSED_PACKAGE_COUNT then
      let (s1, e1) := markUnavailable s "watchdog timeout"
      let (s2, e2) := async_reconnect s1
      (s2, sleepEff :: (e1 ++ [Effect.logWarning "No updates, reconnecting"] ++ e2))
    else
      (s, [sleepEff])
  else
    (s, [sleepEff])

/-- The oracle for one run of `_do_reconnect`: the results of the old
client's `shutdown()`, of `async_create_client` (the fresh client's
handle on success), and of the new client's `get_status()`. -/
structure ReconnectOracle where
  shutdownRes : Except PyExc Unit
  createRes : Except PyExc Nat
  statusRes : Except PyExc (StatusMap × Nat)

/-- `_do_reconnect` (coordinator.py lines 174-199): best-effort shut down
the old client (`contextlib.suppress(Exception)` — `CancelledError` is a
`BaseException` and escapes, re-raised by the outer handler); create a
new client and store it; attempt one status fetch (failure is non-fatal:
mark unavailable and continue); unconditionally restart the
observation+watchdog pair; any non-cancellation exception of the whole
body is caught and logged. -/
def do_reconnect (s : CoordinatorState) (o : ReconnectOracle) :
    CoordinatorState × List Effect × Outcome :=
  match o.shutdownRes with
  | Except.error PyExc.cancelled =>
    (s, [Effect.clientShutdown], Outcome.raisedCancelled)
  | _ =>
    match o.createRes with
    | Except.error PyExc.cancelled =>
      (s, [Effect.clientShutdown, Effect.clientCreate], Outcome.raisedCancelled)
    | Except.error (PyExc.error _) =>
      (s, [Effect.clientShutdown, Effect.clientCreate,
        Effect.logException "Reconnect failed"], Outcome.ok)
    | Except.ok newClient =>
      let s1 : CoordinatorState := { s with client := some newClient }
      let e1 : List Effect :=
        [Effect.clientShutdown, Effect.clientCreate,
          Effect.logInfo "Reconnected", Effect.clientGetStatus]
      match o.statusRes with
      | Except.error PyExc.cancelled =>
        (s1, e1, Outcome.raisedCancelled)
      | Except.error (PyExc.error _) =>
        let (s2, e2) := markUnavailable s1 "reconnect status fetch failed"
        let (s3, e3) := start_observing s2
        (s3,
          e1 ++ e2 ++ [Effect.logDebug "Failed to get status after reconnect"] ++ e3,
          Outcome.ok)
      | Except.ok (status, t) =>
        let s2 : CoordinatorState := { s1 with timeout := t }
        let (s3, e3) := markAvailable s2
        let s4 : CoordinatorState := { s3 with data := some status }
        let (s5, e5) := start_observing s4
        (s5, e1 ++ e3 ++ [Effect.notifyListeners status] ++ e5, Outcome.ok)

/-- `async_first_refresh_and_observe` (coordinator.py lines 201-215):
one awaited `get_status`; on success store the poll-interval hint, mark
available, publish the status, record `now` as `_last_update`, and start
the observation+watchdog pair; on any non-cancellation exception mark
unavailable and raise `ConfigEntryNotReady` (`CancelledError` is not an
`Exception` and propagates unhandled). -/
def async_first_refresh_and_observe (s : CoordinatorState)
    (statusRes : Except PyExc (StatusMap × Nat)) (now : Nat) :
    CoordinatorState × List Effect × Outcome :=
  match statusRes with
  | Except.error PyExc.cancelled =>
    (s, [Effect.clientGetStatus], Outcome.raisedCancelled)
  | Except.error (PyExc.error _) =>
    let (s1, e1) := markUnavailable s "initial refresh failed"
    (s1, Effect.clientGetStatus :: e1,
      Outcome.raisedConfigEntryNotReady "Failed to connect to device")
  | Except.ok (status, t) =>
    let s1 : CoordinatorState := { s with timeout := t }
    let (s2, e2) := markAvailable s1
    let s3 : CoordinatorState := { s2 with data := some status }
    let s4 : CoordinatorState := { s3 with lastUpdate := now }
    let (s5, e5) := start_observing s4
    (s5,
      Effect.clientGetStatus :: (e2 ++ [Effect.notifyListeners status,
        Effect.logDebug "First refresh completed"] ++ e5),
      Outcome.ok)

/-- `async_shutdown` (coordinator.py lines 217-233): cancel each of the
three task handles that is present and clear it; if a client reference
is held, await its `shutdown()` under `contextlib.suppress(Exception)`.
The client reference itself is NOT cleared.  `clientShutdownRes` is the
oracle for the client's `shutdown()` (unused when no client is held);
a non-cancellation error from it is swallowed. -/
def async_shutdown (s : CoordinatorState)
    (clientShutdownRes : Except PyExc Unit) :
    CoordinatorState × List Effect × Outcome :=
  let (s1, e1) :=
    match s.observeTask with
    | some t =>
      (({ s with observeTask := none } : CoordinatorState), [Effect.cancelTask t.id])
    | none => (s, ([] : List Effect))
  let (s2, e2) :=
    match s1.watchdogTask with
    | some t =>
      (({ s1 with watchdogTask := none } : CoordinatorState), [Effect.cancelTask t.id])
    | none => (s1, ([] : List Effect))
  let (s3, e3) :=
    match s2.reconnectTask with
    | some t =>
      (({ s2 with reconnectTask := none } : CoordinatorState), [Effect.cancelTask t.id])
    | none => (s2, ([] : List Effect))
  match s3.client with
  | some _ =>
    match clientShutdownRes with
    | Except.error PyExc.cancelled =>
      (s3, e1 ++ e2 ++ e3 ++ [Effect.clientShutdown], Outcome.raisedCancelled)
    | _ =>
      (s3, e1 ++ e2 ++ e3 ++ [Effect.clientShutdown], Outcome.ok)
  | none => (s3, e1 ++ e2 ++ e3, Outcome.ok)

/-- Modelled from the spec: a watchdog iteration as §4.4 words it —
after marking unavailable it "trigger[s] the reconnect procedure
synchronously (await its completion before looping again)", i.e. the
reconnect body `doReconnect` itself is awaited and hence inlined,
needing the body's client oracle.  Stated only for comparison with
`watchdog_iteration`, the embedding of the source. -/
def watchdog_iteration_awaiting_body (s : CoordinatorState) (now : Nat)
    (o : ReconnectOracle) : CoordinatorState × List Effect :=
  let sleepEff := Effect.sleep (s.timeout * MISSED_PACKAGE_COUNT)
  if s.lastUpdate > 0 then
    let elapsed := now - s.lastUpdate
    if elapsed > s.timeout * MISSED_PACKAGE_COUNT then
      let (s1, e1) := markUnavailable s "watchdog timeout"
      let (s2, e2, _) := do_reconnect s1 o
      (s2, sleepEff :: (e1 ++ [Effect.logWarning "No updates, reconnecting"] ++ e2))
    else
      (s, [sleepEff])
  else
    (s, [sleepEff])

/-- A concrete supervisor state for scenario D: poll-interval hint 1,
last update recorded at time 1. -/
def watchdogScenarioState : CoordinatorState :=
  { initState 0 with timeout := 1, lastUpdate := 1 }

/-- A concrete supervisor state holding a client and all three task
handles. -/
def fullTasksState : CoordinatorState :=
  { initState 0 with
    observeTask := some ⟨1, false⟩
    watchdogTask := some ⟨2, false⟩
    reconnectTask := some ⟨3, false⟩ }

/-- C9: availability-flag transitions are edge-triggered — each mark
call logs if and only if the flag actually changes value, and a repeated
mark in the same direction logs nothing. -/
theorem availability_marks_edge_triggered (s : CoordinatorState)
    (reason reason2 : String) :
    ((markUnavailable s reason).1.deviceAvailable = false
      ∧ ((markUnavailable s reason).2 ≠ [] ↔ s.deviceAvailable = true)
      ∧ (markUnavailable (markUnavailable s reason).1 reason2).2 = [])
    ∧ ((markAvailable s).1.deviceAvailable = true
      ∧ ((markAvailable s).2 ≠ [] ↔ s.deviceAvailable = false)
      ∧ (markAvailable (markAvailable s).1).2 = []) := by
  unfold markUnavailable markAvailable
  by_cases h : s.deviceAvailable <;> simp [h]

/-- C4: calling the reconnect guard while a reconnect task handle is
present and not finished is a no-op — the state is unchanged (no new
task handle) and no effect occurs (in particular no second body is
spawned). -/
theorem reconnect_guard_noop_when_inflight (s : CoordinatorState)
    (t : TaskHandle) (hp : s.reconnectTask = some t) (hd : t.done = false) :
    async_reconnect s = (s, []) := by
  unfold async_reconnect
  rw [hp]
  simp [hd]

/-- Witness for `reconnect_guard_noop_when_inflight`. -/
theorem reconnect_guard_noop_when_inflight_witness :
    async_reconnect { initState 0 with reconnectTask := some ⟨5, false⟩ }
      = ({ initState 0 with reconnectTask := some ⟨5, false⟩ }, []) :=
  reconnect_guard_noop_when_inflight _ ⟨5, false⟩ rfl rfl

/-- C8: `setControlValues` forwards exactly the given key/value map to
the client's write method, returns the client's result unchanged
(success or failure), and leaves the whole coordinator state (cache,
last-update timestamp, everything) untouched; `setControlValue` is
definitionally the singleton-map case. -/
theorem set_control_values_forwards_exactly (s : CoordinatorState)
    (values : StatusMap) (r : Except PyExc Unit) (key : String)
    (value : Scalar) :
    async_set_control_values s values r
        = (s, [Effect.clientSetControlValues values], r)
      ∧ async_set_control_value s key value r
        = async_set_control_values s [(key, value)] r :=
  ⟨rfl, rfl⟩

/-- C10: the model-configuration lookup is total and resolves in a fixed
order — the exact model key wins when present, otherwise the 6-character
family key, otherwise the default configuration with `GEN1`. -/
theorem model_config_resolution (table : List (String × DeviceModelConfig))
    (model : String) :
    (∀ cfg, table.lookup model = some cfg → model_config table model = cfg)
    ∧ (table.lookup model = none →
        ∀ cfg, table.lookup (model.take 6) = some cfg →
          model_config table model = cfg)
    ∧ (table.lookup model = none → table.lookup (model.take 6) = none →
        model_config table model = { api_generation := ApiGeneration.GEN1 }) := by
  unfold model_config
  refine ⟨fun cfg h => by simp [h], fun h cfg h6 => by simp [h, h6],
    fun h h6 => by simp [h, h6]⟩

/-- Witness for `model_config_resolution`: a one-entry table, hit via
the family fallback. -/
theorem model_config_resolution_witness :
    model_config [("AMF765", { api_generation := ApiGeneration.GEN3 })]
        "AMF765-variant"
      = { api_generation := ApiGeneration.GEN3 } :=
  (model_config_resolution
      [("AMF765", { api_generation := ApiGeneration.GEN3 })]
      "AMF765-variant").2.1 (by decide) _ (by decide)

/-- Helper: `_start_observing` installs fresh (not-done) observe and
watchdog task handles drawn from the id supply, emits both spawn
effects, and changes nothing else. -/
theorem start_observing_fields (s : CoordinatorState) :
    (start_observing s).1
        = { s with
            observeTask := some ⟨s.nextTaskId, false⟩
            watchdogTask := some ⟨s.nextTaskId + 1, false⟩
            nextTaskId := s.nextTaskId + 2 }
      ∧ Effect.spawnObserveTask s.nextTaskId ∈ (start_observing s).2
      ∧ Effect.spawnWatchdogTask (s.nextTaskId + 1) ∈ (start_observing s).2 := by
  unfold start_observing
  cases s.observeTask <;> cases s.watchdogTask <;> simp

/-- C5: when the initial `get_status` succeeds with `(m, t)`,
`async_first_refresh_and_observe` ends with the cache equal to exactly
`m`, the stored poll-interval hint equal to `t`, the device available,
a non-zero last-update timestamp, and both the observation task and the
watchdog task started. -/
theorem first_refresh_success_state (s : CoordinatorState) (m : StatusMap)
    (t now : Nat) (hnow : 0 < now) :
    ((async_first_refresh_and_observe s (Except.ok (m, t)) now).1.data = some m)
    ∧ ((async_first_refresh_and_observe s (Except.ok (m, t)) now).1.timeout = t)
    ∧ ((async_first_refresh_and_observe s (Except.ok (m, t)) now).1.deviceAvailable
        = true)
    ∧ (0 < (async_first_refresh_and_observe s (Except.ok (m, t)) now).1.lastUpdate)
    ∧ ((async_first_refresh_and_observe s (Except.ok (m, t)) now).1.observeTask
        = some ⟨s.nextTaskId, false⟩)
    ∧ ((async_first_refresh_and_observe s (Except.ok (m, t)) now).1.watchdogTask
        = some ⟨s.nextTaskId + 1, false⟩)
    ∧ ((async_first_refresh_and_observe s (Except.ok (m, t)) now).2.2 = Outcome.ok)
    ∧ (Effect.spawnObserveTask s.nextTaskId
        ∈ (async_first_refresh_and_observe s (Except.ok (m, t)) now).2.1)
    ∧ (Effect.spawnWatchdogTask (s.nextTaskId + 1)
        ∈ (async_first_refresh_and_observe s (Except.ok (m, t)) now).2.1) := by
  unfold async_first_refresh_and_observe start_observing markAvailable
  by_cases h : s.deviceAvailable <;>
    cases ho : s.observeTask <;> cases hw : s.watchdogTask <;>
      simp [h, ho, hw, hnow]

/-- Witness for `first_refresh_success_state`. -/
theorem first_refresh_success_state_witness :
    (async_first_refresh_and_observe (initState 0)
        (Except.ok ([("pwr", Scalar.str "1")], 60)) 5).1.data
      = some [("pwr", Scalar.str "1")] :=
  (first_refresh_success_state (initState 0) [("pwr", Scalar.str "1")] 60 5
    (by decide)).1

/-- C6: when the initial `get_status` raises a (non-cancellation)
exception, `async_first_refresh_and_observe` raises the distinct
`ConfigEntryNotReady` condition (in particular not a plain error), the
device is marked unavailable, the last-update timestamp stays zero, and
neither the observation task nor the watchdog task is started. -/
theorem first_refresh_failure_state (s : CoordinatorState) (msg : String)
    (now : Nat) (h0 : s.lastUpdate = 0) :
    ((async_first_refresh_and_observe s (Except.error (PyExc.error msg)) now).2.2
        = Outcome.raisedConfigEntryNotReady "Failed to connect to device")
    ∧ (∀ pmsg,
        (async_first_refresh_and_observe s (Except.error (PyExc.error msg)) now).2.2
          ≠ Outcome.raisedError pmsg)
    ∧ ((async_first_refresh_and_observe s (Except.error (PyExc.error msg)) now).1.deviceAvailable
        = false)
    ∧ ((async_first_refresh_and_observe s (Except.error (PyExc.error msg)) now).1.lastUpdate
        = 0)
    ∧ ((async_first_refresh_and_observe s (Except.error (PyExc.error msg)) now).1.observeTask
        = s.observeTask)
    ∧ ((async_first_refresh_and_observe s (Except.error (PyExc.error msg)) now).1.watchdogTask
        = s.watchdogTask)
    ∧ (∀ i, Effect.spawnObserveTask i
        ∉ (async_first_refresh_and_observe s (Except.error (PyExc.error msg)) now).2.1)
    ∧ (∀ i, Effect.spawnWatchdogTask i
        ∉ (async_first_refresh_and_observe s (Except.error (PyExc.error msg)) now).2.1) := by
  unfold async_first_refresh_and_observe markUnavailable
  by_cases h : s.deviceAvailable <;> simp [h, h0]

/-- Witness for `first_refresh_failure_state`. -/
theorem first_refresh_failure_state_witness :
    (async_first_refresh_and_observe (initState 0)
        (Except.error (PyExc.error "offline")) 5).2.2
      = Outcome.raisedConfigEntryNotReady "Failed to connect to device" :=
  (first_refresh_failure_state (initState 0) "offline" 5 rfl).1

/-- C7: when `_do_reconnect`'s new-client creation fails with a
non-cancellation error, the old client's shutdown was attempted
(best-effort, before the creation attempt), the state — in particular
the client handle and the task pair — is completely unchanged, no
observation/watchdog restart happens, and the body returns normally
(only a log); a cancellation during creation propagates uncaught. -/
theorem do_reconnect_create_failure (s : CoordinatorState) (msg : String)
    (shutdownRes : Except PyExc Unit)
    (statusRes : Except PyExc (StatusMap × Nat))
    (hs : shutdownRes ≠ Except.error PyExc.cancelled) :
    (do_reconnect s ⟨shutdownRes, Except.error (PyExc.error msg), statusRes⟩
        = (s, [Effect.clientShutdown, Effect.clientCreate,
            Effect.logException "Reconnect failed"], Outcome.ok))
    ∧ (do_reconnect s ⟨shutdownRes, Except.error PyExc.cancelled, statusRes⟩
        = (s, [Effect.clientShutdown, Effect.clientCreate],
            Outcome.raisedCancelled)) := by
  unfold do_reconnect
  cases shutdownRes with
  | ok u => exact ⟨rfl, rfl⟩
  | error e =>
    cases e with
    | cancelled => exact absurd rfl hs
    | error m => exact ⟨rfl, rfl⟩

/-- Witness for `do_reconnect_create_failure`. -/
theorem do_reconnect_create_failure_witness :
    do_reconnect (initState 0)
        ⟨Except.ok (), Except.error (PyExc.error "connect failed"),
          Except.ok ([], 60)⟩
      = (initState 0, [Effect.clientShutdown, Effect.clientCreate,
          Effect.logException "Reconnect failed"], Outcome.ok) :=
  (do_reconnect_create_failure (initState 0) "connect failed" (Except.ok ())
    (Except.ok ([], 60)) (fun h => Except.noConfusion h)).1

/-- Helper: processing one yielded status emits no reconnect trigger, no
reconnect body, and leaves the reconnect task handle alone. -/
theorem processStatusUpdate_no_reconnect (s : CoordinatorState) (t : Nat)
    (m : StatusMap) :
    List.count Effect.spawnReconnectTrigger (processStatusUpdate s t m).2 = 0
    ∧ (∀ i, Effect.spawnReconnectBody i ∉ (processStatusUpdate s t m).2)
    ∧ (processStatusUpdate s t m).1.reconnectTask = s.reconnectTask := by
  unfold processStatusUpdate markAvailable
  by_cases h : s.deviceAvailable <;> simp [h]

/-- Helper: the observation loop on a stream that finally raises a
non-cancellation error catches it, ends up unavailable, schedules the
reconnect trigger exactly once (fire-and-forget: the reconnect task
handle is untouched and no reconnect body effect appears), and returns
normally. -/
theorem observeLoop_error_props (items : List (Nat × StatusMap))
    (msg : String) :
    ∀ s : CoordinatorState,
      (observeLoop s items (StreamEnd.raised (PyExc.error msg))).2.2
          = Outcome.ok
      ∧ (observeLoop s items (StreamEnd.raised (PyExc.error msg))).1.deviceAvailable
          = false
      ∧ List.count Effect.spawnReconnectTrigger
          (observeLoop s items (StreamEnd.raised (PyExc.error msg))).2.1 = 1
      ∧ (observeLoop s items (StreamEnd.raised (PyExc.error msg))).1.reconnectTask
          = s.reconnectTask
      ∧ ∀ i, Effect.spawnReconnectBody i
          ∉ (observeLoop s items (StreamEnd.raised (PyExc.error msg))).2.1 := by
  induction items with
  | nil =>
    intro s
    unfold observeLoop markUnavailable
    by_cases h : s.deviceAvailable <;> simp [h]
  | cons hd tl ih =>
    intro s
    obtain ⟨t, m⟩ := hd
    obtain ⟨hc, hb, hr⟩ := processStatusUpdate_no_reconnect s t m
    obtain ⟨ih1, ih2, ih3, ih4, ih5⟩ := ih (processStatusUpdate s t m).1
    unfold observeLoop
    simp only [List.count_append, List.mem_append]
    refine ⟨ih1, ih2, ?_, by rw [ih4, hr], ?_⟩
    · rw [hc, ih3]
    · intro i hi
      rcases hi with hi | hi
      · exact hb i hi
      · exact ih5 i hi

/-- Helper: on a stream that is finally cancelled, the loop re-raises
the cancellation and never schedules a reconnect. -/
theorem observeLoop_cancelled_props (items : List (Nat × StatusMap)) :
    ∀ s : CoordinatorState,
      (observeLoop s items (StreamEnd.raised PyExc.cancelled)).2.2
          = Outcome.raisedCancelled
      ∧ List.count Effect.spawnReconnectTrigger
          (observeLoop s items (StreamEnd.raised PyExc.cancelled)).2.1 = 0 := by
  induction items with
  | nil => intro s; unfold observeLoop; simp
  | cons hd tl ih =>
    intro s
    obtain ⟨t, m⟩ := hd
    obtain ⟨hc, _, _⟩ := processStatusUpdate_no_reconnect s t m
    obtain ⟨ih1, ih2⟩ := ih (processStatusUpdate s t m).1
    unfold observeLoop
    simp only [List.count_append]
    exact ⟨ih1, by rw [hc, ih2]⟩

/-- Helper: on a stream that is simply exhausted (terminates without
error), the loop returns normally and never marks unavailable nor
schedules a reconnect. -/
theorem observeLoop_exhausted_props (items : List (Nat × StatusMap)) :
    ∀ s : CoordinatorState,
      (observeLoop s items StreamEnd.exhausted).2.2 = Outcome.ok
      ∧ List.count Effect.spawnReconnectTrigger
          (observeLoop s items StreamEnd.exhausted).2.1 = 0
      ∧ (observeLoop s items StreamEnd.exhausted).1.reconnectTask
          = s.reconnectTask := by
  induction items with
  | nil => intro s; unfold observeLoop; simp
  | cons hd tl ih =>
    intro s
    obtain ⟨t, m⟩ := hd
    obtain ⟨hc, _, hr⟩ := processStatusUpdate_no_reconnect s t m
    obtain ⟨ih1, ih2, ih3⟩ := ih (processStatusUpdate s t m).1
    unfold observeLoop
    simp only [List.count_append]
    exact ⟨ih1, by rw [hc, ih2], by rw [ih3, hr]⟩

/-- C2 (amended): when the observation stream raises a non-cancellation
error, the loop catches it, marks the device unavailable, and schedules
the reconnect trigger as a fire-and-forget task exactly once (without
awaiting: the reconnect task handle is untouched and no reconnect body
runs inside the loop); a cancellation is re-raised uncaught with no
reconnect; a stream that terminates WITHOUT error makes the loop return
normally with no reconnect and no unavailability mark (for the empty
stream the state is completely untouched). -/
theorem observe_stream_end_behaviour (s : CoordinatorState)
    (items : List (Nat × StatusMap)) (msg : String) :
    ((async_observe_status s items (StreamEnd.raised (PyExc.error msg))).2.2
        = Outcome.ok
      ∧ (async_observe_status s items
          (StreamEnd.raised (PyExc.error msg))).1.deviceAvailable = false
      ∧ List.count Effect.spawnReconnectTrigger
          (async_observe_status s items
            (StreamEnd.raised (PyExc.error msg))).2.1 = 1
      ∧ (async_observe_status s items
          (StreamEnd.raised (PyExc.error msg))).1.reconnectTask
          = s.reconnectTask
      ∧ ∀ i, Effect.spawnReconnectBody i
          ∉ (async_observe_status s items
              (StreamEnd.raised (PyExc.error msg))).2.1)
    ∧ ((async_observe_status s items (StreamEnd.raised PyExc.cancelled)).2.2
        = Outcome.raisedCancelled
      ∧ List.count Effect.spawnReconnectTrigger
          (async_observe_status s items
            (StreamEnd.raised PyExc.cancelled)).2.1 = 0)
    ∧ ((async_observe_status s items StreamEnd.exhausted).2.2 = Outcome.ok
      ∧ List.count Effect.spawnReconnectTrigger
          (async_observe_status s items StreamEnd.exhausted).2.1 = 0
      ∧ async_observe_status s [] StreamEnd.exhausted = (s, [], Outcome.ok)) := by
  refine ⟨observeLoop_error_props items msg s,
    observeLoop_cancelled_props items s,
    (observeLoop_exhausted_props items s).1,
    (observeLoop_exhausted_props items s).2.1, rfl⟩

/-- C2 counterexample: a stream that yields one status and then
terminates WITHOUT error.  Contrary to the claim — which says any stream
end marks the device unavailable and schedules a reconnect exactly once
— the device stays available and no reconnect is ever scheduled (the
`async for` just exits and no `except` branch runs). -/
theorem observe_normal_end_counterexample :
    (async_observe_status (initState 0) [(5, [("pwr", Scalar.str "0")])]
        StreamEnd.exhausted).1.deviceAvailable = true
    ∧ List.count Effect.spawnReconnectTrigger
        (async_observe_status (initState 0) [(5, [("pwr", Scalar.str "0")])]
          StreamEnd.exhausted).2.1 = 0
    ∧ (async_observe_status (initState 0) [(5, [("pwr", Scalar.str "0")])]
        StreamEnd.exhausted).1.data = some [("pwr", Scalar.str "0")]
    ∧ (async_observe_status (initState 0) [(5, [("pwr", Scalar.str "0")])]
        StreamEnd.exhausted).2.2 = Outcome.ok := by
  decide

/-- C1 counterexample (scenario D: `pollIntervalHint = 1`, last update
10 - 1 seconds ago).  The firing watchdog iteration does NOT await the
completion of the reconnect body: the body's unconditional first action
(the old client's best-effort shutdown) never appears in the iteration's
trace, the body is merely spawned as a pending (not-done) background
task, and the trace differs from the one the claim's reading — body
awaited and inlined, `watchdog_iteration_awaiting_body` — produces. -/
theorem watchdog_await_body_counterexample :
    Effect.clientShutdown ∉ (watchdog_iteration watchdogScenarioState 10).2
    ∧ Effect.spawnReconnectBody 0 ∈ (watchdog_iteration watchdogScenarioState 10).2
    ∧ (watchdog_iteration watchdogScenarioState 10).1.reconnectTask
        = some ⟨0, false⟩
    ∧ (watchdog_iteration watchdogScenarioState 10).2
        ≠ (watchdog_iteration_awaiting_body watchdogScenarioState 10
            ⟨Except.ok (), Except.ok 1, Except.ok ([], 60)⟩).2
    ∧ Effect.clientShutdown
        ∈ (watchdog_iteration_awaiting_body watchdogScenarioState 10
            ⟨Except.ok (), Except.ok 1, Except.ok ([], 60)⟩).2 := by
  decide

/-- C1 (amended): each watchdog iteration sleeps
`pollIntervalHint * MISSED_PACKAGE_COUNT` seconds; if a last update has
been recorded and the elapsed time exceeds that same threshold, it marks
the device unavailable and awaits the reconnect GUARD
(`_async_reconnect`), which at most spawns the reconnect body as a
background task — the body's completion is not awaited and none of its
effects occur within the iteration; if no update was ever recorded or
the elapsed time is within tolerance, the iteration does nothing beyond
the sleep. -/
theorem watchdog_iteration_behaviour (s : CoordinatorState) (now : Nat) :
    (s.lastUpdate = 0 →
      watchdog_iteration s now
        = (s, [Effect.sleep (s.timeout * MISSED_PACKAGE_COUNT)]))
    ∧ (0 < s.lastUpdate →
        now - s.lastUpdate ≤ s.timeout * MISSED_PACKAGE_COUNT →
      watchdog_iteration s now
        = (s, [Effect.sleep (s.timeout * MISSED_PACKAGE_COUNT)]))
    ∧ (0 < s.lastUpdate →
        s.timeout * MISSED_PACKAGE_COUNT < now - s.lastUpdate →
      watchdog_iteration s now
          = ((async_reconnect (markUnavailable s "watchdog timeout").1).1,
            Effect.sleep (s.timeout * MISSED_PACKAGE_COUNT)
              :: ((markUnavailable s "watchdog timeout").2
                ++ [Effect.logWarning "No updates, reconnecting"]
                ++ (async_reconnect (markUnavailable s "watchdog timeout").1).2))
        ∧ (watchdog_iteration s now).1.deviceAvailable = false
        ∧ Effect.clientShutdown ∉ (watchdog_iteration s now).2
        ∧ Effect.clientCreate ∉ (watchdog_iteration s now).2) := by
  unfold watchdog_iteration
  refine ⟨?_, ?_, ?_⟩
  · intro h
    simp [h]
  · intro h1 h2
    simp [h1, Nat.not_lt.mpr h2]
  · intro h1 h2
    unfold markUnavailable async_reconnect
    by_cases hA : s.deviceAvailable <;>
      rcases hT : s.reconnectTask with _ | ⟨i, d⟩ <;>
        first
          | (cases d <;> simp [h1, h2, hA, hT])
          | simp [h1, h2, hA, hT]

/-- Witness for `watchdog_iteration_behaviour`. -/
theorem watchdog_iteration_behaviour_witness :
    Effect.clientShutdown ∉ (watchdog_iteration watchdogScenarioState 10).2 :=
  ((watchdog_iteration_behaviour watchdogScenarioState 10).2.2
    (by decide) (by decide)).2.2.1

/-- C3 counterexample: from a state with a client and all three tasks,
two successive `async_shutdown` calls.  Contrary to the claim, the
second call DOES invoke the Device Client's `shutdown()` again — the
client reference is never cleared, only the task handles are — so the
client-shutdown side effect occurs twice in total. -/
theorem shutdown_twice_counterexample :
    Effect.clientShutdown
        ∈ (async_shutdown (async_shutdown fullTasksState (Except.ok ())).1
            (Except.ok ())).2.1
    ∧ List.count Effect.clientShutdown
        ((async_shutdown fullTasksState (Except.ok ())).2.1
          ++ (async_shutdown (async_shutdown fullTasksState (Except.ok ())).1
              (Except.ok ())).2.1) = 2 := by
  decide

/-- C3 (amended): calling `async_shutdown` twice in a row produces no
error; the second call finds all three task handles cleared, cancels
nothing, and leaves the state unchanged — but, because the client
reference is not cleared by the first call, it does invoke the Device
Client's best-effort `shutdown()` once more (its errors swallowed).
`async_shutdown` is safe to call when no client and no tasks exist. -/
theorem shutdown_twice_behaviour (s : CoordinatorState)
    (r1 r2 : Except PyExc Unit)
    (h1 : r1 ≠ Except.error PyExc.cancelled)
    (h2 : r2 ≠ Except.error PyExc.cancelled) :
    ((async_shutdown s r1).2.2 = Outcome.ok)
    ∧ ((async_shutdown s r1).1.observeTask = none)
    ∧ ((async_shutdown s r1).1.watchdogTask = none)
    ∧ ((async_shutdown s r1).1.reconnectTask = none)
    ∧ (async_shutdown (async_shutdown s r1).1 r2
        = ((async_shutdown s r1).1,
          if (async_shutdown s r1).1.client.isSome
            then [Effect.clientShutdown] else [],
          Outcome.ok))
    ∧ (s.client = none → s.observeTask = none → s.watchdogTask = none →
        s.reconnectTask = none → async_shutdown s r1 = (s, [], Outcome.ok)) := by
  unfold async_shutdown
  rcases ho : s.observeTask with _ | o <;>
    rcases hw : s.watchdogTask with _ | w <;>
      rcases hr : s.reconnectTask with _ | r <;>
        rcases hc : s.client with _ | c <;>
          rcases r1 with _ | e1 <;>
            first
              | (rcases e1 with _ | m1 <;>
                  first
                    | exact absurd rfl h1
                    | (rcases r2 with _ | e2 <;>
                        first
                          | (rcases e2 with _ | m2 <;>
                              first
                                | exact absurd rfl h2
                                | simp [ho, hw, hr, hc])
                          | simp [ho, hw, hr, hc]))
              | (rcases r2 with _ | e2 <;>
                  first
                    | (rcases e2 with _ | m2 <;>
                        first
                          | exact absurd rfl h2
                          | simp [ho, hw, hr, hc])
                    | simp [ho, hw, hr, hc])

/-- Witness for `shutdown_twice_behaviour`. -/
theorem shutdown_twice_behaviour_witness :
    async_shutdown (async_shutdown fullTasksState (Except.ok ())).1
        (Except.ok ())
      = ((async_shutdown fullTasksState (Except.ok ())).1,
        if (async_shutdown fullTasksState (Except.ok ())).1.client.isSome
          then [Effect.clientShutdown] else [],
        Outcome.ok) :=
  (shutdown_twice_behaviour fullTasksState (Except.ok ()) (Except.ok ())
    (fun h => Except.noConfusion h) (fun h => Except.noConfusion h)).2.2.2.2.1

/-- Witness for `observe_stream_end_behaviour`. -/
theorem observe_stream_end_behaviour_witness :
    (async_observe_status (initState 0) [(5, [("pwr", Scalar.str "0")])]
        (StreamEnd.raised (PyExc.error "stream failed"))).2.2 = Outcome.ok :=
  (observe_stream_end_behaviour (initState 0) [(5, [("pwr", Scalar.str "0")])]
    "stream failed").1.1

/-- Witness for `set_control_values_forwards_exactly`. -/
theorem set_control_values_forwards_exactly_witness :
    async_set_control_values (initState 0) [("pwr", Scalar.str "0")]
        (Except.error (PyExc.error "connection lost"))
      = (initState 0,
        [Effect.clientSetControlValues [("pwr", Scalar.str "0")]],
        Except.error (PyExc.error "connection lost")) :=
  (set_control_values_forwards_exactly (initState 0) [("pwr", Scalar.str "0")]
    (Except.error (PyExc.error "connection lost")) "pwr" (Scalar.str "0")).1

/-- Witness for `availability_marks_edge_triggered`. -/
theorem availability_marks_edge_triggered_witness :
    (markUnavailable (initState 0) "watchdog timeout").1.deviceAvailable
      = false :=
  (availability_marks_edge_triggered (initState 0) "watchdog timeout"
    "status update failed").1.1

end PhilipsAirPurifier
